import Mathlib

/-
Verification of the skyscanner client (src/skyscanner/skyscanner.py).

The file shallowly embeds the pure control logic of the client:
  - the passenger/date validation phase of SkyScanner.get_flight_prices
    (lines 134-159), with datetimes modelled as calendar records ordered
    lexicographically and the two datetime.now() readings passed in
    explicitly as parameters;
  - the flight-price poll loop (lines 201-226), with the stream of poll
    responses passed in as a function from poll index to a parsed response;
  - the captcha 403 handler SkyScanner._handle_captcha_403 (lines 90-101),
    with Python exception flow made explicit;
  - the leg builder SkyScanner.__gen_leg (lines 603-644) and the per-leg
    IATA resolution of SkyScanner.get_itinerary_details (lines 391-420);
  - the car-rental stabilization loop of SkyScanner.get_car_rental
    (lines 568-587), with the stream of groups_count values passed in as a
    function from request index to count;
  - the session-id extractor SkyScanner.__get_session_id (lines 589-601)
    over a small JSON model;
  - the header construction of SkyScanner.__init__ (lines 57-75), with the
    local-variable binding of UUID made explicit.

Python falsiness (None, 0, empty string) and Python exceptions (ValueError,
TypeError, KeyError, NameError, AttributeError) are modelled explicitly
where the control flow depends on them.
-/

namespace Skyscanner

/-- Modelled from the spec: the module types.py is not under src/.
Section 3 of the design gives the flexible-search markers as the
enumeration ANYTIME, EVERYWHERE. -/
inductive SpecialTypes where
  | anytime
  | everywhere
  deriving DecidableEq

/-- Modelled from the spec: the module types.py is not under src/.
Section 3 gives CabinClass as the enumeration ECONOMY, PREMIUM_ECONOMY,
BUSINESS, FIRST. -/
inductive CabinClass where
  | economy
  | premiumEconomy
  | business
  | first
  deriving DecidableEq

/-- Modelled from the spec: the module types.py is not under src/.
Section 3 gives AirportRef as title, entityId, skyCode; the constructor
calls at skyscanner.py lines 267-271 use the field names title, entity_id,
skyId. -/
structure Airport where
  title : String
  entity_id : String
  skyId : String
  deriving DecidableEq

/-- A Python datetime, reduced to the components the client reads:
calendar fields for leg encoding and a minute-of-day remainder so that the
chronological order is total. Comparison of datetimes is lexicographic on
(year, month, day, minute). -/
structure PyDateTime where
  year : Int
  month : Int
  day : Int
  minute : Int
  deriving DecidableEq

/-- Chronological strict order on datetimes (Python `<` on datetime). -/
def dtLt (a b : PyDateTime) : Bool :=
  decide (a.year < b.year ∨ (a.year = b.year ∧
    (a.month < b.month ∨ (a.month = b.month ∧
      (a.day < b.day ∨ (a.day = b.day ∧ a.minute < b.minute))))))

/-- A depart_date / return_date argument after the None-default has been
resolved: either a concrete datetime or a SpecialTypes marker. -/
inductive DVal where
  | dt (d : PyDateTime)
  | special (s : SpecialTypes)
  deriving DecidableEq

/-- A destination (or origin) argument: a concrete airport or a
SpecialTypes marker. -/
inductive PlaceOrSpecial where
  | airport (a : Airport)
  | special (s : SpecialTypes)
  deriving DecidableEq

/-- The Python error values the embedded control flow can raise.
ValueError payloads are identified by which validation message they carry
(see valueErrMessage below for the exact source strings). -/
inductive ValErr where
  | childAges
  | returnBeforeDepart
  | maxCounts
  | cabinFlexible
  | pastDate
  deriving DecidableEq

inductive PyErr where
  | valueError (e : ValErr)
  | typeError
  | keyError
  | nameError
  | attributeError
  | jsonDecodeError
  | bannedWithCaptcha (url : String)
  | genericFailure (statusCode : Nat)
  | attemptsExhausted
  deriving DecidableEq

/- ======================================================================
   Car rental stabilization loop: SkyScanner.get_car_rental, lines 568-587.

     last_count = None
     for _ in range(self.max_retries):
         req = self.session.get(url, params=params)
         req_data = req.json()
         params["reqn"] = str(int(params["reqn"]) + 1)
         count = req_data["groups_count"]
         if not last_count:
             last_count = count
             time.sleep(self.retry_delay)
             continue
         if count == last_count:
             return req_data
         last_count = count
         time.sleep(self.retry_delay)
     raise AttemptsExhaustedIncompleteResponse()

   counts i is the groups_count of the response to the i-th request
   (0-based).  The whole response is identified by its request index.
   ====================================================================== -/

/-- Result of the car-rental loop: either the response to request
`request` is returned, or the loop exhausts after issuing `requests`
requests and raises AttemptsExhaustedIncompleteResponse. -/
inductive CarResult where
  | returned (request : Nat)
  | exhausted (requests : Nat)
  deriving DecidableEq

/-- One step of the loop. `last = none` models `last_count = None`; the
guard `if not last_count` is Python truthiness, so it also fires on
`some 0`. In every continuing branch last_count is set to the new count. -/
def carPollAux (counts : Nat → Int) : Nat → Nat → Option Int → CarResult
  | 0, i, _ => .exhausted i
  | Nat.succ fuel, i, none => carPollAux counts fuel (i + 1) (some (counts i))
  | Nat.succ fuel, i, some last =>
    if last = 0 then carPollAux counts fuel (i + 1) (some (counts i))
    else if counts i = last then .returned i
    else carPollAux counts fuel (i + 1) (some (counts i))

/-- The whole loop of get_car_rental: max_retries iterations starting with
an unset baseline. -/
def carPoll (counts : Nat → Int) (max_retries : Nat) : CarResult :=
  carPollAux counts max_retries 0 none

/- ======================================================================
   Flight search poll loop: SkyScanner.get_flight_prices, lines 183-226.
   ====================================================================== -/

/-- A parsed search response: HTTP status code, data["context"]["status"]
and data["context"]["sessionId"]. -/
structure SearchResp where
  statusCode : Nat
  status : String
  sessionId : String
  deriving DecidableEq

/-- Outcome of the search flow. `completed none` is a return from the
initiate response itself; `completed (some i)` is a return from poll
response i. -/
inductive SearchOutcome where
  | completed (source : Option Nat)
  | captchaBanned
  | genericFailure (code : Nat)
  | exhausted
  deriving DecidableEq

/-- The while-loop of lines 204-226. `polls i` is the parsed response to
the i-th poll request; `sid` is the session_id variable. The first
component of the result is the trace of session ids the poll GETs were
suffixed with (one entry per poll request issued, in order); the second is
the outcome. On an incomplete 200 response the session_id variable is
reassigned from the response before the next iteration. -/
def pollLoopAux (polls : Nat → SearchResp) : Nat → Nat → String → List String × SearchOutcome
  | 0, _, _ => ([], .exhausted)
  | Nat.succ fuel, i, sid =>
    let r := polls i
    if r.statusCode ≠ 200 then ([sid], .genericFailure r.statusCode)
    else if r.status = "complete" then ([sid], .completed (some i))
    else
      let rest := pollLoopAux polls fuel (i + 1) r.sessionId
      (sid :: rest.1, rest.2)

/-- The network phase of get_flight_prices after the initiate POST
(lines 187-226): a 403 initiate response goes to the captcha handler, a
complete one returns immediately, otherwise the loop starts from the
session id carried by the initiate response. -/
def flightSearch (initResp : SearchResp) (polls : Nat → SearchResp)
    (max_retries : Nat) : List String × SearchOutcome :=
  if initResp.statusCode = 403 then ([], .captchaBanned)
  else if initResp.status = "complete" then ([], .completed none)
  else pollLoopAux polls max_retries 0 initResp.sessionId

/- ======================================================================
   Validation phase of get_flight_prices, lines 134-159.  The two
   datetime.now() readings (line 135 for the depart default, line 157 for
   the past-date check) are passed in as t1 and t2.
   ====================================================================== -/

/-- Line 134-135: `if not depart_date: depart_date = datetime.datetime.now()`.
Only None is falsy here (datetimes and enum markers are truthy), so the
default fires exactly when the argument is omitted. -/
def departDefault (depart_date : Option DVal) (t1 : PyDateTime) : DVal :=
  match depart_date with
  | none => .dt t1
  | some d => d

/-- Line 137: the per-element child-age bound 0 <= e < 18. -/
def childAgeOk (e : Int) : Bool :=
  decide (0 ≤ e) && decide (e < 18)

/-- Lines 140-144: the return-before-depart check, guarded by both values
being concrete datetimes (isinstance checks). -/
def retBeforeDep (depart : DVal) (return_date : Option DVal) : Bool :=
  match depart, return_date with
  | .dt dep, some (.dt r) => dtLt r dep
  | _, _ => false

/-- Membership of a DVal in the set literal ANYTIME, EVERYWHERE of
line 149-152. -/
def dvalFlex (d : DVal) : Bool :=
  match d with
  | .special .anytime => true
  | .special .everywhere => true
  | .dt _ => false

/-- Membership of the destination in the same set literal. -/
def placeFlex (p : PlaceOrSpecial) : Bool :=
  match p with
  | .special .anytime => true
  | .special .everywhere => true
  | .airport _ => false

/-- Lines 149-155: nonempty intersection of the three arguments with the
flexible-marker set, combined with a non-economy cabin. A missing return
date contributes nothing to the set intersection. -/
def flexConflict (depart : DVal) (return_date : Option DVal)
    (destination : PlaceOrSpecial) (cabinClass : CabinClass) : Bool :=
  (dvalFlex depart ||
      (match return_date with | some r => dvalFlex r | none => false) ||
      placeFlex destination) &&
    decide (cabinClass ≠ CabinClass.economy)

/-- Lines 157-159: `if depart_date < now or (return_date and (return_date < now))`.
The Python `or` short-circuits, so the return side is only evaluated when
the depart side is false; comparing a SpecialTypes marker against a
datetime is a TypeError, and a missing return date is falsy. -/
def pastCheck (depart : DVal) (return_date : Option DVal)
    (t2 : PyDateTime) : Except PyErr Unit :=
  match depart with
  | .special _ => .error .typeError
  | .dt d =>
    if dtLt d t2 then .error (.valueError .pastDate)
    else
      match return_date with
      | none => .ok ()
      | some (.dt r) =>
        if dtLt r t2 then .error (.valueError .pastDate) else .ok ()
      | some (.special _) => .error .typeError

/-- The whole pre-network phase of get_flight_prices (lines 134-159), in
source order: depart default, child-age bounds, return-before-depart,
passenger-count bounds, flexible/cabin conflict, past-date check. The
error tags stand for the source messages:
  ValErr.childAges          line 138
  ValErr.returnBeforeDepart line 144
  ValErr.maxCounts          line 147
  ValErr.cabinFlexible      lines 153-155
  ValErr.pastDate           line 159. -/
def flightValidate (t1 t2 : PyDateTime) (destination : PlaceOrSpecial)
    (depart_date return_date : Option DVal) (cabinClass : CabinClass)
    (adults : Int) (childAges : List Int) : Except PyErr Unit :=
  let depart := departDefault depart_date t1
  if ¬ (childAges.all childAgeOk) then .error (.valueError .childAges)
  else if retBeforeDep depart return_date then
    .error (.valueError .returnBeforeDepart)
  else if ¬ (adults ≤ 8 ∧ childAges.length ≤ 8) then
    .error (.valueError .maxCounts)
  else if flexConflict depart return_date destination cabinClass then
    .error (.valueError .cabinFlexible)
  else pastCheck depart return_date t2

/- ======================================================================
   A small JSON model, for the captcha handler and the session-id
   extractor.
   ====================================================================== -/

inductive Json where
  | null
  | bool (b : Bool)
  | num (n : Int)
  | str (s : String)
  | arr (xs : List Json)
  | obj (kvs : List (String × Json))

/-- Python dict key lookup (dict.get / `in`), over the association list of
an object. -/
def jsonLookup : List (String × Json) → String → Option Json
  | [], _ => none
  | (k, v) :: rest, key => if k = key then some v else jsonLookup rest key

/-- Python truthiness of a JSON value. -/
def jsonTruthy (j : Json) : Bool :=
  match j with
  | .null => false
  | .bool b => b
  | .num n => decide (n ≠ 0)
  | .str s => decide (s ≠ "")
  | .arr xs => !xs.isEmpty
  | .obj kvs => !kvs.isEmpty

/-- Python dict indexing data[k]: KeyError on a missing key, TypeError
when the value is not a dict. -/
def pyIndex (j : Json) (k : String) : Except PyErr Json :=
  match j with
  | .obj kvs =>
    match jsonLookup kvs k with
    | some v => .ok v
    | none => .error .keyError
  | _ => .error .typeError

/- ======================================================================
   The captcha handler SkyScanner._handle_captcha_403, lines 90-101.

     try:
         data = req.json()
         redirect_path = data.get("redirect_to")
         url = "https://www.skyscanner.net"
         if redirect_path:
             url += redirect_path
         raise BannedWithCaptcha(url)
     except Exception:
         raise BannedWithCaptcha("https://www.skyscanner.net")

   The input is the parse result of the response body (none when the body
   is not valid JSON).  The value of a run is the exception the method
   finally propagates to its caller.
   ====================================================================== -/

/-- The base domain hard-coded at lines 95 and 101. -/
def skyscannerBase : String := "https://www.skyscanner.net"

/-- The exception raised inside the try block of _handle_captcha_403: a
decode error for an unparsable body, an AttributeError for a non-dict
body, a TypeError for a truthy non-string redirect value, and otherwise
the BannedWithCaptcha built at line 99 from the computed url. -/
def tryBlock403 (parsed : Option Json) : PyErr :=
  match parsed with
  | none => .jsonDecodeError
  | some (.obj kvs) =>
    match jsonLookup kvs "redirect_to" with
    | none => .bannedWithCaptcha skyscannerBase
    | some v =>
      if jsonTruthy v then
        match v with
        | .str s => .bannedWithCaptcha (skyscannerBase ++ s)
        | _ => .typeError
      else .bannedWithCaptcha skyscannerBase
  | some _ => .attributeError

/-- Modelled from the spec: the module errors.py is not under src/.
Section 7 presents BannedWithCaptcha and the other failure kinds as the
ordinary error taxonomy of the client, so every value raised inside the
try block derives from Exception and is caught by the bare
`except Exception` handler at line 100. -/
def raisedIsException : PyErr → Bool := fun _ => true

/-- The exception _handle_captcha_403 propagates: whatever the try block
raises is caught by the handler at line 100, which raises the
default-URL BannedWithCaptcha of line 101. -/
def handleCaptcha403 (parsed : Option Json) : PyErr :=
  let raised := tryBlock403 parsed
  if raisedIsException raised then .bannedWithCaptcha skyscannerBase
  else raised

/- ======================================================================
   Leg building (SkyScanner.__gen_leg, lines 603-644) and the per-leg
   IATA resolution of get_itinerary_details (lines 391-420).
   ====================================================================== -/

/-- The "dates" record of a leg: a date record with year/month/day when
the value is a concrete datetime, a bare marker record otherwise
(lines 624-628). -/
inductive LegDate where
  | date (year month day : Int)
  | marker (s : SpecialTypes)
  deriving DecidableEq

/-- The "legOrigin"/"legDestination" record: an entity record carrying the
entity id for a concrete airport, a bare marker record otherwise
(lines 629-638). -/
inductive LegPlace where
  | entity (entityId : String)
  | marker (s : SpecialTypes)
  deriving DecidableEq

/-- One leg of the frozen search payload. -/
structure LegPayload where
  dates : LegDate
  legOrigin : LegPlace
  legDestination : LegPlace
  placeOfStay : String
  deriving DecidableEq

/-- SkyScanner.__gen_leg as called from get_flight_prices: both call sites
pass a truthy first positional date (so the `depart_date if depart_date
else return_date` fallback of line 623 resolves to it) and explicit
origin/destination.  placeOfStay is the destination entity id when the
destination is concrete, else the origin entity id; reading entity_id off
a marker is an AttributeError (lines 639-643). -/
def genLeg (d : DVal) (origin destination : PlaceOrSpecial) :
    Except PyErr LegPayload :=
  let dates : LegDate :=
    match d with
    | .dt dt => .date dt.year dt.month dt.day
    | .special s => .marker s
  let legOrigin : LegPlace :=
    match origin with
    | .airport a => .entity a.entity_id
    | .special s => .marker s
  let legDestination : LegPlace :=
    match destination with
    | .airport a => .entity a.entity_id
    | .special s => .marker s
  match destination, origin with
  | .airport a, _ => .ok ⟨dates, legOrigin, legDestination, a.entity_id⟩
  | .special _, .airport o => .ok ⟨dates, legOrigin, legDestination, o.entity_id⟩
  | .special _, .special _ => .error .attributeError

/-- The legs array of the search payload built at lines 161-175: one
outbound leg, plus a return leg with origin and destination swapped when a
truthy return date is given (the return leg is built as
__gen_leg(return_date, origin=destination, destination=origin)). -/
def searchLegs (origin : Airport) (destination : PlaceOrSpecial)
    (depart : DVal) (return_date : Option DVal) :
    Except PyErr (List LegPayload) :=
  match genLeg depart (.airport origin) destination with
  | .error e => .error e
  | .ok l1 =>
    match return_date with
    | none => .ok [l1]
    | some rd =>
      match genLeg rd destination (.airport origin) with
      | .error e => .error e
      | .ok l2 => .ok [l1, l2]

/-- One entry of searchRequestDetails.legs in the itinerary-detail
request (lines 405-419). -/
structure DetailLeg where
  originIata : String
  destinationIata : String
  dateYear : Int
  dateMonth : Int
  dateDay : Int
  originSkyscannerCode : String
  destinationSkyscannerCode : String
  deriving DecidableEq

/-- `leg.get("legOrigin", leg)["entityId"]` (lines 392-393) on a leg built
by __gen_leg: the key is always present, and indexing a bare marker record
with "entityId" is a KeyError. -/
def legEntityId (p : LegPlace) : Except PyErr String :=
  match p with
  | .entity e => .ok e
  | .marker _ => .error .keyError

/-- `leg["dates"]["year"]` and friends (lines 404-412): a KeyError on a
bare marker record. -/
def legDateComponents (d : LegDate) : Except PyErr (Int × Int × Int) :=
  match d with
  | .date y m day => .ok (y, m, day)
  | .marker _ => .error .keyError

/-- Lines 391-420 for a single recorded leg, with concrete
response.origin and response.destination airports: the origin IATA code is
the result origin skyId exactly when the leg origin entity id equals the
result origin entity id, else the destination skyId; symmetrically for the
destination side.  The resolved codes fill both the Iata and the
SkyscannerCode fields. -/
def buildDetailLeg (origin destination : Airport) (leg : LegPayload) :
    Except PyErr DetailLeg :=
  match legEntityId leg.legOrigin with
  | .error e => .error e
  | .ok originId =>
    match legEntityId leg.legDestination with
    | .error e => .error e
    | .ok destinationId =>
      let originIata :=
        if origin.entity_id = originId then origin.skyId
        else destination.skyId
      let destinationIata :=
        if destination.entity_id = destinationId then destination.skyId
        else origin.skyId
      match legDateComponents leg.dates with
      | .error e => .error e
      | .ok (y, m, day) =>
        .ok ⟨originIata, destinationIata, y, m, day, originIata, destinationIata⟩

/-- The searchRequestDetails.legs array: buildDetailLeg over every leg of
the frozen search payload, in order (the for-loop of lines 391-420). -/
def buildDetailLegs (origin destination : Airport) :
    List LegPayload → Except PyErr (List DetailLeg)
  | [] => .ok []
  | l :: ls =>
    match buildDetailLeg origin destination l with
    | .error e => .error e
    | .ok d =>
      match buildDetailLegs origin destination ls with
      | .error e => .error e
      | .ok rest => .ok (d :: rest)

/- ======================================================================
   SkyScanner.__get_session_id, lines 589-601.

     if "itineraries" not in data:
         return None
     return data["itineraries"]["context"]["sessionId"]
   ====================================================================== -/

/-- The session-id extractor: None (no error) when the top-level
"itineraries" key is missing, otherwise the nested indexing with its
Python KeyError/TypeError behavior. -/
def getSessionId (data : List (String × Json)) : Except PyErr (Option Json) :=
  match jsonLookup data "itineraries" with
  | none => .ok none
  | some itins =>
    match pyIndex itins "context" with
    | .error e => .error e
    | .ok ctx =>
      match pyIndex ctx "sessionId" with
      | .error e => .error e
      | .ok sid => .ok (some sid)

/- ======================================================================
   SkyScanner.__init__, lines 57-75.

     if not px_authorization:
         solver = PXSolver(proxy=proxy, verify=verify)
         px_authorization, UUID = solver.gen_px_authorization()
     headers = { ..., "X-Px-Authorization": px_authorization,
                 "X-Px-Uuid": UUID, ... }

   The local name UUID is bound only inside the branch; the headers dict
   reads it unconditionally, so the read raises NameError whenever the
   branch was skipped.
   ====================================================================== -/

/-- The two header fields whose values depend on the branch. -/
structure ClientHeaders where
  pxAuthorization : String
  pxUuid : String
  deriving DecidableEq

/-- Python falsiness of the px_authorization argument: None or the empty
string. -/
def strFalsy (s : Option String) : Bool :=
  match s with
  | none => true
  | some v => decide (v = "")

/-- Header construction of __init__: the pair of Option values models the
bindings of the local names px_authorization and UUID after the
conditional (UUID stays unbound when the provider branch is skipped);
building the headers dict reads both names, and reading an unbound name is
a NameError. -/
def initClient (px_authorization : Option String)
    (providerToken providerUuid : String) : Except PyErr ClientHeaders :=
  let bindings : Option String × Option String :=
    if strFalsy px_authorization then (some providerToken, some providerUuid)
    else (px_authorization, none)
  match bindings.1, bindings.2 with
  | some px, some uuidVal => .ok ⟨px, uuidVal⟩
  | _, _ => .error .nameError

end Skyscanner

namespace Skyscanner

/- ======================================================================
   Lemmas about the car-rental loop.
   ====================================================================== -/

/-- When every count read is zero, the baseline guard fires on every
iteration and the loop consumes all its fuel. -/
lemma carPollAux_zero (counts : Nat → Int) :
    ∀ fuel i last, (∀ k, i ≤ k → k < i + fuel → counts k = 0) →
      (last = none ∨ last = some 0) →
      carPollAux counts fuel i last = .exhausted (i + fuel) := by
  intro fuel
  induction fuel with
  | zero => intro i last _ _; cases last with
      | none => simp [carPollAux]
      | some v => simp [carPollAux]
  | succ f ih =>
    intro i last hz hlast
    have hci : counts i = 0 := hz i (le_refl i) (by omega)
    have step : carPollAux counts (f + 1) i last =
        carPollAux counts f (i + 1) (some (counts i)) := by
      rcases hlast with h | h
      · subst h; simp [carPollAux]
      · subst h; simp [carPollAux]
    rw [step]
    have := ih (i + 1) (some (counts i))
      (fun k hk1 hk2 => hz k (by omega) (by omega))
      (Or.inr (by rw [hci]))
    rw [this]
    congr 1
    omega

/-- Running the loop from request index j with the baseline set to the
previous count: if all counts up to i+1 are nonzero, the first adjacent
equal pair is (i, i+1), and there is enough fuel, the loop returns the
response to request i+1. -/
lemma carPollAux_run (counts : Nat → Int) (i : Nat)
    (hnz : ∀ k, k ≤ i + 1 → counts k ≠ 0)
    (hne : ∀ j, j + 1 ≤ i → counts (j + 1) ≠ counts j)
    (heq : counts (i + 1) = counts i) :
    ∀ fuel j, 1 ≤ j → j ≤ i + 1 → i + 1 - j < fuel →
      carPollAux counts fuel j (some (counts (j - 1))) = .returned (i + 1) := by
  intro fuel
  induction fuel with
  | zero => intro j _ _ hfuel; omega
  | succ f ih =>
    intro j hj1 hji hfuel
    have hprev : counts (j - 1) ≠ 0 := hnz (j - 1) (by omega)
    by_cases hcase : j = i + 1
    · subst hcase
      have : counts (i + 1 - 1) = counts i := rfl
      rw [this]
      simp only [carPollAux]
      rw [if_neg (by rw [this] at hprev; exact hprev), if_pos heq]
    · have hjle : j ≤ i := by omega
      have hneq : counts j ≠ counts (j - 1) := by
        have h := hne (j - 1) (by omega)
        have hj : j - 1 + 1 = j := by omega
        rw [hj] at h
        exact h
      simp only [carPollAux]
      rw [if_neg hprev, if_neg hneq]
      have hstep := ih (j + 1) (by omega) (by omega) (by omega)
      have hj : j + 1 - 1 = j := by omega
      rw [hj] at hstep
      exact hstep

/- ======================================================================
   Lemmas about the flight poll loop.
   ====================================================================== -/

/-- Trace characterization: the k-th poll GET is suffixed with the session
id the loop entered with when k = 0, and with the session id carried by
the immediately preceding poll response otherwise. -/
lemma pollLoopAux_trace (polls : Nat → SearchResp) :
    ∀ fuel i sid k, k < (pollLoopAux polls fuel i sid).1.length →
      (pollLoopAux polls fuel i sid).1.getD k "" =
        if k = 0 then sid else (polls (i + k - 1)).sessionId := by
  intro fuel
  induction fuel with
  | zero => intro i sid k hk; simp [pollLoopAux] at hk
  | succ f ih =>
    intro i sid k hk
    simp only [pollLoopAux] at hk ⊢
    by_cases hc : (polls i).statusCode ≠ 200
    · rw [if_pos hc] at hk ⊢
      simp at hk
      subst hk
      simp
    · rw [if_neg hc] at hk ⊢
      by_cases hs : (polls i).status = "complete"
      · rw [if_pos hs] at hk ⊢
        simp at hk
        subst hk
        simp
      · rw [if_neg hs] at hk ⊢
        cases k with
        | zero => simp
        | succ k =>
          simp only [List.length_cons] at hk
          have hk2 : k < (pollLoopAux polls f (i + 1) (polls i).sessionId).1.length := by
            omega
          simp only [List.getD_cons_succ]
          rw [ih (i + 1) (polls i).sessionId k hk2]
          cases k with
          | zero => simp
          | succ m =>
            have h1 : ¬ (m + 1 = 0) := by omega
            have h2 : ¬ (m + 1 + 1 = 0) := by omega
            rw [if_neg h1, if_neg h2]
            congr 2
            omega

/-- Exhaustion: when every poll response within the budget is an
incomplete 200, the loop consumes its whole fuel, issuing one poll request
per unit of fuel. -/
lemma pollLoopAux_exhaust (polls : Nat → SearchResp) :
    ∀ fuel i sid, (∀ j, j < fuel →
        (polls (i + j)).statusCode = 200 ∧ (polls (i + j)).status ≠ "complete") →
      (pollLoopAux polls fuel i sid).2 = .exhausted ∧
        (pollLoopAux polls fuel i sid).1.length = fuel := by
  intro fuel
  induction fuel with
  | zero => intro i sid _; simp [pollLoopAux]
  | succ f ih =>
    intro i sid hp
    have h0 := hp 0 (by omega)
    simp only [Nat.add_zero] at h0
    simp only [pollLoopAux]
    rw [if_neg (by simp [h0.1]), if_neg h0.2]
    have := ih (i + 1) (polls i).sessionId
      (fun j hj => by
        have := hp (j + 1) (by omega)
        have harith : i + (j + 1) = i + 1 + j := by omega
        rw [harith] at this
        exact this)
    simp only [List.length_cons]
    exact ⟨this.1, by rw [this.2]⟩

/-- Evaluation of the pre-network validation phase in a benign date/cabin
context (concrete future depart date, no return date, concrete
destination, economy cabin): only the child-age and passenger-count checks
remain live. -/
lemma flightValidate_benign (a : Airport) (adults : Int) (childAges : List Int) :
    flightValidate ⟨2020, 1, 1, 0⟩ ⟨2020, 1, 1, 0⟩ (.airport a)
        (some (.dt ⟨2030, 1, 1, 0⟩)) none .economy adults childAges =
      if childAges.all childAgeOk then
        if adults ≤ 8 ∧ childAges.length ≤ 8 then .ok ()
        else .error (.valueError .maxCounts)
      else .error (.valueError .childAges) := by
  have hdt : dtLt ⟨2030, 1, 1, 0⟩ ⟨2020, 1, 1, 0⟩ = false := by decide
  by_cases h1 : childAges.all childAgeOk
  · by_cases h2 : adults ≤ 8 ∧ childAges.length ≤ 8
    · simp [flightValidate, departDefault, retBeforeDep, flexConflict,
        dvalFlex, placeFlex, pastCheck, hdt, h1, h2]
    · simp [flightValidate, departDefault, retBeforeDep, flexConflict,
        dvalFlex, placeFlex, pastCheck, hdt, h1, h2]
  · simp [flightValidate, departDefault, retBeforeDep, flexConflict,
      dvalFlex, placeFlex, pastCheck, hdt, h1]

/- ======================================================================
   Claim theorems.
   ====================================================================== -/

/-- C1: during the flight-price poll loop, every poll request targets the
most recently observed session identifier: the first poll uses the session
id of the initiate response, every later poll the session id carried by
the immediately preceding poll response; in particular, when every poll
response rotates the session id away from the original one, no poll after
the first ever targets the original. -/
theorem poll_requests_target_latest_session
    (initResp : SearchResp) (polls : Nat → SearchResp) (max_retries : Nat)
    (h403 : initResp.statusCode ≠ 403) (hinc : initResp.status ≠ "complete") :
    (∀ k, k < (flightSearch initResp polls max_retries).1.length →
        (flightSearch initResp polls max_retries).1.getD k "" =
          if k = 0 then initResp.sessionId else (polls (k - 1)).sessionId)
    ∧ ((∀ j, (polls j).sessionId ≠ initResp.sessionId) →
        ∀ k, 0 < k → k < (flightSearch initResp polls max_retries).1.length →
          (flightSearch initResp polls max_retries).1.getD k "" ≠
            initResp.sessionId) := by
  have hfs : flightSearch initResp polls max_retries =
      pollLoopAux polls max_retries 0 initResp.sessionId := by
    simp [flightSearch, h403, hinc]
  constructor
  · intro k hk
    rw [hfs] at hk ⊢
    have h := pollLoopAux_trace polls max_retries 0 initResp.sessionId k hk
    simpa using h
  · intro hrot k hk0 hk
    rw [hfs] at hk ⊢
    have h := pollLoopAux_trace polls max_retries 0 initResp.sessionId k hk
    rw [h, if_neg (by omega)]
    exact hrot (0 + k - 1)

/-- Witness for C1: with a rotating poll stream, the second poll request
targets the session id returned by the first poll response. -/
theorem poll_requests_target_latest_session_witness :
    (flightSearch ⟨200, "pending", "s0"⟩
        (fun j => if j = 0 then ⟨200, "pending", "p0"⟩
          else ⟨200, "pending", "p1"⟩) 2).1.getD 1 "" = "p0" := by
  have h := (poll_requests_target_latest_session ⟨200, "pending", "s0"⟩
      (fun j => if j = 0 then ⟨200, "pending", "p0"⟩
        else ⟨200, "pending", "p1"⟩) 2
      (by decide) (by decide)).1 1 (by decide)
  simpa using h

/-- C2 (code bug): at a 403 whose body parses to a dict with
redirect_to = "/foo", the try block of _handle_captcha_403 raises the
intended BannedWithCaptcha with URL base + "/foo", but that very raise is
caught by the bare except handler, so the method always propagates the
bare-base-URL BannedWithCaptcha instead — the redirect path is discarded
on every input. -/
theorem captcha_redirect_always_discarded :
    tryBlock403 (some (.obj [("redirect_to", .str "/foo")])) =
        .bannedWithCaptcha (skyscannerBase ++ "/foo")
    ∧ handleCaptcha403 (some (.obj [("redirect_to", .str "/foo")])) =
        .bannedWithCaptcha skyscannerBase
    ∧ skyscannerBase ++ "/foo" ≠ skyscannerBase := by
  refine ⟨rfl, rfl, ?_⟩
  decide

/-- Counterexample to C3 as stated: with every groups_count equal to 0,
requests 0 and 1 carry equal consecutive counts, yet the loop does not
return the 2nd response — the truthiness guard on the baseline never lets
a comparison happen, and the budget exhausts. -/
theorem car_rental_equal_zero_counts_not_returned :
    carPoll (fun _ => (0 : Int)) 2 = CarResult.exhausted 2 ∧
      CarResult.exhausted 2 ≠ CarResult.returned 1 := by
  refine ⟨rfl, ?_⟩
  decide

/-- C3 (amended): when the counts involved are nonzero, the first adjacent
equal pair of counts ends the loop: if counts 0 .. i+1 are all nonzero, no
earlier adjacent pair is equal, counts at i+1 and i agree, and the retry
budget covers i+2 requests, the loop returns the response to request i+1.
In particular the count sequence 5, 5, 8, 8, 8 returns on the 2nd request
(see the witness). -/
theorem car_rental_first_equal_nonzero_pair_returns
    (counts : Nat → Int) (max_retries i : Nat)
    (hnz : ∀ k, k ≤ i + 1 → counts k ≠ 0)
    (hne : ∀ j, j + 1 ≤ i → counts (j + 1) ≠ counts j)
    (heq : counts (i + 1) = counts i)
    (hfuel : i + 2 ≤ max_retries) :
    carPoll counts max_retries = .returned (i + 1) := by
  unfold carPoll
  cases max_retries with
  | zero => omega
  | succ m =>
    have hstep : carPollAux counts (m + 1) 0 none =
        carPollAux counts m 1 (some (counts 0)) := by
      simp [carPollAux]
    rw [hstep]
    exact carPollAux_run counts i hnz hne heq m 1 (by omega) (by omega) (by omega)

/-- Witness for C3 (amended): the count sequence 5, 5, 8, 8, 8 returns on
the 2nd request (request index 1). -/
theorem car_rental_first_equal_nonzero_pair_returns_witness :
    carPoll (fun n => if n = 0 then (5 : Int) else if n = 1 then 5 else 8) 5 =
      CarResult.returned 1 := by
  have h := car_rental_first_equal_nonzero_pair_returns
    (fun n => if n = 0 then (5 : Int) else if n = 1 then 5 else 8) 5 0
    (by intro k hk; interval_cases k <;> decide)
    (by intro j hj; exact absurd hj (by omega))
    (by decide) (by omega)
  simpa using h

/-- Counterexample to C4 as stated: adults = 0 violates the claimed lower
bound adults >= 1, yet the whole pre-network validation phase passes — the
code only checks adults <= 8 and never enforces a lower bound. -/
theorem adults_zero_passes_validation :
    flightValidate ⟨2020, 1, 1, 0⟩ ⟨2020, 1, 1, 0⟩
        (.airport ⟨"", "e1", "AAA"⟩) (some (.dt ⟨2030, 1, 1, 0⟩)) none
        .economy 0 [] = .ok () ∧ ¬ ((1 : Int) ≤ 0) := by
  refine ⟨rfl, ?_⟩
  decide

/-- C4 (amended): before any network request, get_flight_prices validates
that adults <= 8 (no lower bound), that childAges has at most 8 entries,
and that each child age lies in 0..17; in a benign date/cabin context the
validation passes exactly when all three hold, and any violation of them
raises a ValueError. -/
theorem passenger_validation_bounds (a : Airport) (adults : Int)
    (childAges : List Int) :
    (flightValidate ⟨2020, 1, 1, 0⟩ ⟨2020, 1, 1, 0⟩ (.airport a)
        (some (.dt ⟨2030, 1, 1, 0⟩)) none .economy adults childAges = .ok () ↔
      (childAges.all childAgeOk = true ∧ adults ≤ 8 ∧ childAges.length ≤ 8))
    ∧ (¬ (childAges.all childAgeOk = true ∧ adults ≤ 8 ∧ childAges.length ≤ 8) →
        ∃ e, flightValidate ⟨2020, 1, 1, 0⟩ ⟨2020, 1, 1, 0⟩ (.airport a)
            (some (.dt ⟨2030, 1, 1, 0⟩)) none .economy adults childAges =
          .error (.valueError e)) := by
  rw [flightValidate_benign]
  by_cases h1 : childAges.all childAgeOk
  · rw [if_pos h1]
    by_cases h2 : adults ≤ 8 ∧ childAges.length ≤ 8
    · rw [if_pos h2]
      exact ⟨by simp [h1, h2], fun hc => absurd ⟨h1, h2⟩ hc⟩
    · rw [if_neg h2]
      exact ⟨by simp [h2], fun _ => ⟨_, rfl⟩⟩
  · rw [if_neg h1]
    exact ⟨by simp [h1], fun _ => ⟨_, rfl⟩⟩

/-- Witness for C4 (amended): adults = 9 violates the upper bound and the
validation phase raises a ValueError. -/
theorem passenger_validation_bounds_witness :
    ∃ e, flightValidate ⟨2020, 1, 1, 0⟩ ⟨2020, 1, 1, 0⟩
        (.airport ⟨"", "e1", "AAA"⟩) (some (.dt ⟨2030, 1, 1, 0⟩)) none
        .economy 9 [] = .error (.valueError e) :=
  (passenger_validation_bounds ⟨"", "e1", "AAA"⟩ 9 []).2 (by decide)

/-- C5: when the initiate response is incomplete (and not a 403) and every
poll response within the budget is an incomplete 200, the flight search
ends in AttemptsExhaustedIncompleteResponse after issuing exactly
max_retries poll requests following the initial one. -/
theorem exhaustion_after_exact_retries
    (initResp : SearchResp) (polls : Nat → SearchResp) (max_retries : Nat)
    (h403 : initResp.statusCode ≠ 403) (hinc : initResp.status ≠ "complete")
    (hp : ∀ j, j < max_retries →
      (polls j).statusCode = 200 ∧ (polls j).status ≠ "complete") :
    (flightSearch initResp polls max_retries).2 = .exhausted ∧
      (flightSearch initResp polls max_retries).1.length = max_retries := by
  have hfs : flightSearch initResp polls max_retries =
      pollLoopAux polls max_retries 0 initResp.sessionId := by
    simp [flightSearch, h403, hinc]
  rw [hfs]
  exact pollLoopAux_exhaust polls max_retries 0 initResp.sessionId
    (fun j hj => by simpa using hp j hj)

/-- Witness for C5: with max_retries = 3 and a never-complete poll stream,
the search exhausts after exactly 3 poll requests. -/
theorem exhaustion_after_exact_retries_witness :
    (flightSearch ⟨200, "pending", "s0"⟩ (fun _ => ⟨200, "pending", "p"⟩) 3).2 =
        SearchOutcome.exhausted ∧
      (flightSearch ⟨200, "pending", "s0"⟩ (fun _ => ⟨200, "pending", "p"⟩) 3).1.length = 3 :=
  exhaustion_after_exact_retries ⟨200, "pending", "s0"⟩
    (fun _ => ⟨200, "pending", "p"⟩) 3 (by decide) (by decide)
    (by
      intro j hj
      refine ⟨rfl, ?_⟩
      show "pending" ≠ "complete"
      decide)

/-- C6: for every concrete leg recorded in the frozen search payload, the
itinerary-detail request resolves the leg origin IATA code to the result
origin skyId exactly when the leg origin entity id equals the result
origin entity id and to the destination skyId otherwise, and symmetrically
for the destination side; consequently, on a round-trip payload with
distinct origin and destination entity ids, the swapped return leg gets
swapped codes. -/
theorem itinerary_detail_leg_codes :
    (∀ (origin destination : Airport) (lo ld : String) (y m d : Int)
        (pos : String),
        buildDetailLeg origin destination ⟨.date y m d, .entity lo, .entity ld, pos⟩ =
          .ok ⟨(if origin.entity_id = lo then origin.skyId else destination.skyId),
               (if destination.entity_id = ld then destination.skyId else origin.skyId),
               y, m, d,
               (if origin.entity_id = lo then origin.skyId else destination.skyId),
               (if destination.entity_id = ld then destination.skyId else origin.skyId)⟩)
    ∧ (∀ (a b : Airport) (d1 d2 : PyDateTime), a.entity_id ≠ b.entity_id →
        (searchLegs a (.airport b) (.dt d1) (some (.dt d2))).bind
            (buildDetailLegs a b) =
          .ok [⟨a.skyId, b.skyId, d1.year, d1.month, d1.day, a.skyId, b.skyId⟩,
               ⟨b.skyId, a.skyId, d2.year, d2.month, d2.day, b.skyId, a.skyId⟩]) := by
  constructor
  · intro origin destination lo ld y m d pos
    simp [buildDetailLeg, legEntityId, legDateComponents]
  · intro a b d1 d2 hne
    simp [searchLegs, genLeg, Except.bind, buildDetailLegs, buildDetailLeg,
      legEntityId, legDateComponents, hne, hne.symm]

/-- Witness for C6: concrete airports with distinct entity ids; the
outbound detail leg carries the origin/destination codes in order, the
return leg carries them swapped. -/
theorem itinerary_detail_leg_codes_witness :
    (searchLegs ⟨"O", "e1", "AAA"⟩ (.airport ⟨"D", "e2", "BBB"⟩)
        (.dt ⟨2026, 6, 1, 0⟩) (some (.dt ⟨2026, 6, 8, 0⟩))).bind
      (buildDetailLegs ⟨"O", "e1", "AAA"⟩ ⟨"D", "e2", "BBB"⟩) =
      .ok [⟨"AAA", "BBB", 2026, 6, 1, "AAA", "BBB"⟩,
           ⟨"BBB", "AAA", 2026, 6, 8, "BBB", "AAA"⟩] :=
  itinerary_detail_leg_codes.2 ⟨"O", "e1", "AAA"⟩ ⟨"D", "e2", "BBB"⟩
    ⟨2026, 6, 1, 0⟩ ⟨2026, 6, 8, 0⟩ (by decide)

/-- C7: a car-rental search whose responses all report groups_count 0
never declares convergence: the unset-baseline guard fires on every
iteration, all max_retries requests are issued, and the loop ends in
AttemptsExhaustedIncompleteResponse. -/
theorem zero_counts_always_exhaust (counts : Nat → Int) (max_retries : Nat)
    (hz : ∀ i, i < max_retries → counts i = 0) :
    carPoll counts max_retries = .exhausted max_retries := by
  unfold carPoll
  have hz2 : ∀ k, 0 ≤ k → k < 0 + max_retries → counts k = 0 := by
    intro k _ hk2
    exact hz k (by omega)
  have h := carPollAux_zero counts max_retries 0 none hz2 (Or.inl rfl)
  simpa using h

/-- Witness for C7: four zero counts exhaust a budget of 4. -/
theorem zero_counts_always_exhaust_witness :
    carPoll (fun _ => (0 : Int)) 4 = CarResult.exhausted 4 :=
  zero_counts_always_exhaust (fun _ => (0 : Int)) 4 (fun _ _ => rfl)

/-- Counterexample to C8 as stated: a payload that has the top-level
"itineraries" key but lacks the nested context/sessionId fields makes the
extractor raise a KeyError instead of yielding an absent session id. -/
theorem session_id_partial_payload_raises :
    getSessionId [("itineraries", Json.obj [])] = .error PyErr.keyError ∧
      (Except.error PyErr.keyError : Except PyErr (Option Json)) ≠
        .ok none := by
  refine ⟨rfl, ?_⟩
  intro h
  exact Except.noConfusion h

/-- C8 (amended): the session id is None (no error) exactly when the
top-level "itineraries" key is absent, and it is extracted from the nested
itineraries.context.sessionId path whenever that path is present. -/
theorem session_id_extraction :
    (∀ data, jsonLookup data "itineraries" = none →
        getSessionId data = .ok none)
    ∧ (∀ (data itins ctx : List (String × Json)) (sid : Json),
        jsonLookup data "itineraries" = some (.obj itins) →
        jsonLookup itins "context" = some (.obj ctx) →
        jsonLookup ctx "sessionId" = some sid →
        getSessionId data = .ok (some sid)) := by
  constructor
  · intro data h
    simp [getSessionId, h]
  · intro data itins ctx sid h1 h2 h3
    simp [getSessionId, h1, pyIndex, h2, h3]

/-- Witness for C8 (amended): a fully populated payload yields its session
id. -/
theorem session_id_extraction_witness :
    getSessionId
        [("itineraries", Json.obj
          [("context", Json.obj [("sessionId", Json.str "sess-1")])])] =
      .ok (some (Json.str "sess-1")) :=
  session_id_extraction.2 _ _ _ (Json.str "sess-1") rfl rfl rfl

/-- C9: constructing the client with a pre-supplied nonempty
px_authorization skips the provider branch, leaving the local name UUID
unbound, so building the headers raises NameError; construction succeeds
exactly when the provider branch runs (px_authorization omitted or
empty). -/
theorem presupplied_token_unbound_uuid (providerToken providerUuid : String) :
    (∀ s : String, s ≠ "" →
        initClient (some s) providerToken providerUuid = .error .nameError)
    ∧ initClient none providerToken providerUuid =
        .ok ⟨providerToken, providerUuid⟩
    ∧ initClient (some "") providerToken providerUuid =
        .ok ⟨providerToken, providerUuid⟩ := by
  refine ⟨?_, rfl, rfl⟩
  intro s hs
  simp [initClient, strFalsy, hs]

/-- Witness for C9: the token "tok" is nonempty and construction fails
with NameError. -/
theorem presupplied_token_unbound_uuid_witness :
    initClient (some "tok") "pt" "pu" = .error PyErr.nameError :=
  (presupplied_token_unbound_uuid "pt" "pu").1 "tok" (by decide)

/-- Counterexample to C10 as stated: with the clock advancing between the
two readings but an invalid child age supplied, the call raises the
child-age ValueError, not the past-date one. -/
theorem default_depart_invalid_child_age_error :
    flightValidate ⟨2020, 1, 1, 0⟩ ⟨2020, 1, 1, 1⟩
        (.airport ⟨"", "e1", "AAA"⟩) none none .economy 1 [18] =
      .error (.valueError .childAges) ∧
      ValErr.childAges ≠ ValErr.pastDate := by
  refine ⟨rfl, ?_⟩
  decide

/-- C10 (amended): when depart_date is omitted it defaults to the first
clock reading, and the past-date check compares it against the later
second reading; whenever the clock advances between the readings the call
always raises some ValueError before any network request, and it is the
past-date ValueError whenever the other arguments pass the earlier
checks. -/
theorem default_depart_always_fails (t1 t2 : PyDateTime)
    (destination : PlaceOrSpecial) (return_date : Option DVal)
    (cabinClass : CabinClass) (adults : Int) (childAges : List Int)
    (hclock : dtLt t1 t2 = true) :
    (∃ e, flightValidate t1 t2 destination none return_date cabinClass
        adults childAges = .error (.valueError e))
    ∧ (childAges.all childAgeOk = true →
        retBeforeDep (.dt t1) return_date = false →
        (adults ≤ 8 ∧ childAges.length ≤ 8) →
        flexConflict (.dt t1) return_date destination cabinClass = false →
        flightValidate t1 t2 destination none return_date cabinClass
            adults childAges = .error (.valueError .pastDate)) := by
  constructor
  · simp only [flightValidate, departDefault]
    split
    · exact ⟨_, rfl⟩
    · split
      · exact ⟨_, rfl⟩
      · split
        · exact ⟨_, rfl⟩
        · split
          · exact ⟨_, rfl⟩
          · simp only [pastCheck]
            rw [if_pos hclock]
            exact ⟨_, rfl⟩
  · intro h1 h2 h3 h4
    simp only [flightValidate, departDefault]
    rw [if_neg (not_not_intro h1), if_neg (by simp [h2]),
      if_neg (not_not_intro h3), if_neg (by simp [h4])]
    simp only [pastCheck]
    rw [if_pos hclock]

/-- Witness for C10 (amended): clock advancing by one minute with
otherwise valid arguments gives the past-date ValueError. -/
theorem default_depart_always_fails_witness :
    flightValidate ⟨2020, 1, 1, 0⟩ ⟨2020, 1, 1, 1⟩
        (.airport ⟨"", "e1", "AAA"⟩) none none .economy 1 [] =
      .error (.valueError .pastDate) :=
  (default_depart_always_fails ⟨2020, 1, 1, 0⟩ ⟨2020, 1, 1, 1⟩
      (.airport ⟨"", "e1", "AAA"⟩) none .economy 1 [] (by decide)).2
    (by decide) (by decide) (by decide) (by decide)

end Skyscanner
